import Mathlib

/-!
Shallow embedding of `ssm_cache/cache.py`: the classes `Refreshable`,
`SSMParameterGroup`, `SSMParameter` and the `refresh_on_error` decorator,
together with theorems settling the specification claims about them.

Modelling conventions:
* Python `datetime` instants are integers (seconds since an arbitrary epoch);
  `timedelta(seconds=s)` is the integer `s`; `datetime.utcnow()` is an explicit
  `now` argument.
* A Python `None` is `Option.none`.
* Python call depth is an explicit fuel argument; exhausting the fuel models
  exceeding the interpreter recursion limit (`RecursionError`): an operation
  whose result is `Res.diverge` for every fuel never completes normally.
* Every modelled operation also returns the list of external `get_parameters`
  calls it performed, so "performs no external fetch" is the statement that
  this list is empty.
-/

/-- Python exception kinds that arise in the modelled code. -/
inductive PyErr where
  | typeError
  | keyError (k : String)
  | storeError (msg : String)
  deriving DecidableEq, Repr

/-- Python values appearing in the modelled `get_parameters` response. -/
inductive PyVal where
  | pstr (s : String)
  | plist (xs : List PyVal)
  | pdict (kvs : List (String × PyVal))

/-- Python subscript `x['k']` with a string key: on a dict it looks the key up
(`KeyError` when absent); on a list or a string a string subscript is a
`TypeError` (a list accepts only integer indices). -/
def pySubscript : PyVal → String → Except PyErr PyVal
  | PyVal.pdict kvs, k =>
    match kvs.find? (fun kv => kv.1 == k) with
    | some kv => Except.ok kv.2
    | none => Except.error (PyErr.keyError k)
  | PyVal.plist _, _ => Except.error PyErr.typeError
  | PyVal.pstr _, _ => Except.error PyErr.typeError

/-- One external `get_parameters(Names=..., WithDecryption=...)` call. -/
structure FetchCall where
  names : List String
  withDecryption : Bool
  deriving DecidableEq, Repr

/-- Result of a fueled run of a modelled operation: a normal return, a raised
Python exception (carrying the state at the moment it escapes the operation),
or exhaustion of the call-depth budget (Python `RecursionError`; an operation
that gives `Res.diverge` for every budget never completes normally). -/
inductive Res (α : Type) where
  | ok (a : α)
  | raise (e : PyErr) (a : α)
  | diverge

/-- Python truthiness `not x` for an optional number: `None` and `0` are falsy,
every other number is truthy. -/
def pyFalsy : Option Int → Bool
  | none => true
  | some a => a == 0

/-- `self._max_age_delta = timedelta(seconds=max_age or 0)`: `None or 0` and
`0 or 0` evaluate to `0`, any other number stands for itself. -/
def Refreshable.max_age_delta (max_age : Option Int) : Int :=
  max_age.getD 0

/-- `Refreshable._should_refresh` (lines 20-28): never refresh when `max_age`
is falsy; always refresh when values were never fetched; otherwise refresh
exactly when `datetime.utcnow() > self._last_refresh_time + self._max_age_delta`. -/
def Refreshable.should_refresh (max_age last_refresh_time : Option Int) (now : Int) : Bool :=
  if pyFalsy max_age then false
  else
    match last_refresh_time with
    | none => true
    | some t => decide (now > t + Refreshable.max_age_delta max_age)

/-- `Refreshable.refresh` (lines 30-33) as a template over the concrete
`_refresh`: run `self._refresh()`; if it returns normally, stamp
`self._last_refresh_time = datetime.utcnow()`; if it raises, the exception
propagates before the stamping statement runs. The subclass state is `σ`;
the result is (outcome, new `_last_refresh_time`, new subclass state). -/
def Refreshable.refresh {σ : Type} (under_refresh : σ → Except PyErr Unit × σ)
    (now : Int) (last_refresh_time : Option Int) (s : σ) :
    Except PyErr Unit × Option Int × σ :=
  match under_refresh s with
  | (Except.error e, s') => (Except.error e, last_refresh_time, s')
  | (Except.ok _, s') => (Except.ok (), some now, s')

/-- Whether an `Except` outcome is a normal return. -/
def isOkE : Except PyErr Unit → Bool
  | Except.ok _ => true
  | Except.error _ => false

/-- State of an `SSMParameter` instance. Field mapping to the Python slots:
`name` is `self._name`, `value` is `self._value`, `maxAge` is `self._max_age`,
`lastRefreshTime` is `self._last_refresh_time`, `withDecryption` is
`self._with_decryption`, and `hasGroup` is `self._group is not None` (the
owning group's state is passed alongside the parameter wherever the code
dereferences `self._group`). -/
structure SSMParameter where
  name : String
  value : Option String
  maxAge : Option Int
  lastRefreshTime : Option Int
  withDecryption : Bool
  hasGroup : Bool
  deriving DecidableEq, Repr

/-- `SSMParameter.__init__(param_name, max_age=None, with_decryption=True)`
(lines 67-72): stores the arguments and performs no external call; the second
component is the (empty) list of fetches the constructor issues. -/
def SSMParameter.init (param_name : String) (max_age : Option Int) (with_decryption : Bool) :
    SSMParameter × List FetchCall :=
  ({ name := param_name, value := none, maxAge := max_age,
     lastRefreshTime := none, withDecryption := with_decryption, hasGroup := false }, [])

/-- The `name` property (lines 86-88): its body is `return self.name`, which
re-enters the property itself (the backing slot is `self._name`, which the body
never reads). The fuel is the remaining call depth; `none` is the
`RecursionError` the unbounded re-entry produces. -/
def SSMParameter.name_property : Nat → SSMParameter → Option String
  | 0, _ => none
  | fuel+1, p => SSMParameter.name_property fuel p

/-- State of an `SSMParameterGroup` instance: `maxAge` is `self._max_age`,
`lastRefreshTime` is `self._last_refresh_time`, `parameters` is
`self._parameters` in insertion order. -/
structure SSMParameterGroup where
  maxAge : Option Int
  lastRefreshTime : Option Int
  parameters : List SSMParameter
  deriving DecidableEq, Repr

/-- `SSMParameterGroup.__init__(max_age=None)` (lines 36-39). -/
def SSMParameterGroup.init (max_age : Option Int) : SSMParameterGroup :=
  { maxAge := max_age, lastRefreshTime := none, parameters := [] }

/-- `SSMParameterGroup.parameter(*args, **kwargs)` (lines 41-45): construct an
`SSMParameter`, set its `_group` back-reference, append it to
`self._parameters`, and return it. -/
def SSMParameterGroup.parameter (g : SSMParameterGroup) (param_name : String)
    (max_age : Option Int) (with_decryption : Bool) : SSMParameterGroup × SSMParameter :=
  let p0 := (SSMParameter.init param_name max_age with_decryption).1
  let p := { p0 with hasGroup := true }
  ({ g with parameters := g.parameters ++ [p] }, p)

/-- Modelled from the spec: the sole external collaborator is a remote
key-value parameter store (`fetch_parameters : names → mapping name ↦ value`,
spec section 6); a store is a partial map from names to values. Client
construction (`get_ssm_client`, `SSM_CLIENT_FACTORY`) is the out-of-scope
plumbing the spec excludes, so the store is passed in directly. -/
def Store : Type := String → Option String

/-- Modelled from the spec: the response envelope of the external
`get_parameters` call that `SSMParameter._refresh` indexes into — a mapping
whose `"Parameters"` entry is a list of `Name`/`Value` records for the found
names and whose `"InvalidParameters"` entry lists the unknown names (the
documented shape of the store's batched-fetch response; the code's own comment
"create a dict of name:value for each param" iterates this list conceptually). -/
def getParametersResponse (store : Store) (names : List String) : PyVal :=
  PyVal.pdict
    [("Parameters",
       PyVal.plist (names.filterMap (fun n =>
         (store n).map (fun v =>
           PyVal.pdict [("Name", PyVal.pstr n), ("Value", PyVal.pstr v)])))),
     ("InvalidParameters",
       PyVal.plist ((names.filter (fun n => (store n).isNone)).map PyVal.pstr))]

/-- Read back a Python string into the `value` slot (the slot holds whatever
the assignment produced; only a string can actually reach it). -/
def pyvalString : PyVal → Option String
  | PyVal.pstr s => some s
  | _ => none

/-- Writing through the `param` alias held in `self._parameters`: the group's
list holds the very objects the loop mutates, so an update to a parameter is
visible in the list (parameters are identified by their name). -/
def SSMParameterGroup.update_param (g : SSMParameterGroup) (nm : String) (p' : SSMParameter) :
    SSMParameterGroup :=
  { g with parameters := g.parameters.map (fun q => if q.name = nm then p' else q) }

mutual

/-- `Refreshable.refresh` (lines 30-33) as inherited by `SSMParameterGroup`:
run `self._refresh()` and then stamp `self._last_refresh_time = now`. -/
def SSMParameterGroup.refresh (store : Store) (fuel : Nat) (now : Int)
    (g : SSMParameterGroup) : List FetchCall × Res SSMParameterGroup :=
  match fuel with
  | 0 => ([], Res.diverge)
  | n+1 =>
    match SSMParameterGroup.under_refresh store n now g with
    | (log, Res.ok g') => (log, Res.ok { g' with lastRefreshTime := some now })
    | (log, Res.raise e g') => (log, Res.raise e g')
    | (log, Res.diverge) => (log, Res.diverge)

/-- `SSMParameterGroup._refresh` (lines 47-49):
`for param in self._parameters: param._refresh()`. -/
def SSMParameterGroup.under_refresh (store : Store) (fuel : Nat) (now : Int)
    (g : SSMParameterGroup) : List FetchCall × Res SSMParameterGroup :=
  match fuel with
  | 0 => ([], Res.diverge)
  | n+1 => SSMParameterGroup.refresh_loop store n now g g.parameters

/-- The loop of `SSMParameterGroup._refresh`, iterating the remaining
parameters; an exception raised by `param._refresh()` aborts the loop. -/
def SSMParameterGroup.refresh_loop (store : Store) (fuel : Nat) (now : Int)
    (g : SSMParameterGroup) (ps : List SSMParameter) :
    List FetchCall × Res SSMParameterGroup :=
  match fuel with
  | 0 => ([], Res.diverge)
  | n+1 =>
    match ps with
    | [] => ([], Res.ok g)
    | p :: rest =>
      match SSMParameter.under_refresh store n now g p with
      | (log, Res.ok (g', p')) =>
        let g2 := SSMParameterGroup.update_param g' p.name p'
        let r := SSMParameterGroup.refresh_loop store n now g2 rest
        (log ++ r.1, r.2)
      | (log, Res.raise e (g', p')) =>
        (log, Res.raise e (SSMParameterGroup.update_param g' p.name p'))
      | (log, Res.diverge) => (log, Res.diverge)

/-- `SSMParameter._refresh` (lines 74-84): when `self._group` is set, delegate
to `self._group.refresh()`; otherwise call
`get_parameters(Names=[self._name], WithDecryption=self._with_decryption)` on
the client and then execute `self._value = response['Parameters']['Value']`. -/
def SSMParameter.under_refresh (store : Store) (fuel : Nat) (now : Int)
    (g : SSMParameterGroup) (p : SSMParameter) :
    List FetchCall × Res (SSMParameterGroup × SSMParameter) :=
  match fuel with
  | 0 => ([], Res.diverge)
  | n+1 =>
    if p.hasGroup then
      match SSMParameterGroup.refresh store n now g with
      | (log, Res.ok g') => (log, Res.ok (g', p))
      | (log, Res.raise e g') => (log, Res.raise e (g', p))
      | (log, Res.diverge) => (log, Res.diverge)
    else
      let call : FetchCall := { names := [p.name], withDecryption := p.withDecryption }
      let response := getParametersResponse store [p.name]
      match pySubscript response "Parameters" with
      | Except.error e => ([call], Res.raise e (g, p))
      | Except.ok inner =>
        match pySubscript inner "Value" with
        | Except.error e => ([call], Res.raise e (g, p))
        | Except.ok v => ([call], Res.ok (g, { p with value := pyvalString v }))

end

/-- `Refreshable.refresh` (lines 30-33) as inherited by `SSMParameter`: run
`self._refresh()` and then stamp `self._last_refresh_time = now`. -/
def SSMParameter.refresh (store : Store) (fuel : Nat) (now : Int)
    (g : SSMParameterGroup) (p : SSMParameter) :
    List FetchCall × Res (SSMParameterGroup × SSMParameter) :=
  match fuel with
  | 0 => ([], Res.diverge)
  | n+1 =>
    match SSMParameter.under_refresh store n now g p with
    | (log, Res.ok (g', p')) => (log, Res.ok (g', { p' with lastRefreshTime := some now }))
    | (log, Res.raise e s) => (log, Res.raise e s)
    | (log, Res.diverge) => (log, Res.diverge)

/-- The `value` property (lines 90-99): `if self._value is None or
self._should_refresh(): self.refresh()` and then `return self._value`. The
staleness test reads the parameter's own `_max_age` and `_last_refresh_time`. -/
def SSMParameter.value_property (store : Store) (fuel : Nat) (now : Int)
    (g : SSMParameterGroup) (p : SSMParameter) :
    List FetchCall × Res (Option String) :=
  if p.value.isNone || Refreshable.should_refresh p.maxAge p.lastRefreshTime now then
    match SSMParameter.refresh store fuel now g p with
    | (log, Res.ok (_, p')) => (log, Res.ok p'.value)
    | (log, Res.raise e (_, p')) => (log, Res.raise e p'.value)
    | (log, Res.diverge) => (log, Res.diverge)
  else ([], Res.ok p.value)

/-- Observable events of one call of the `refresh_on_error`-wrapped function:
an invocation of the wrapped `func` with its arguments and keyword arguments,
the `self.refresh()` call, and the `error_callback()` call. -/
inductive WrapEvent (A : Type) where
  | invoke (a : A) (kwargs : List (String × Bool))
  | refreshCall
  | callbackCall
  deriving DecidableEq, Repr

/-- Python dict assignment `kwargs[k] = v`: overwrite the entry in place when
the key is present, append it otherwise. -/
def kwSet : List (String × Bool) → String → Bool → List (String × Bool)
  | [], k, v => [(k, v)]
  | (k', v') :: rest, k, v =>
    if k' = k then (k', v) :: rest else (k', v') :: kwSet rest k v

/-- Python dict lookup `kwargs[k]` as an option. -/
def kwGet : List (String × Bool) → String → Option Bool
  | [], _ => none
  | (k', v') :: rest, k => if k' = k then some v' else kwGet rest k

/-- `SSMParameter.refresh_on_error(error_class, error_callback, retry_argument)`
applied to `func` (lines 101-122), i.e. the inner `wrapped(*args, **kwargs)`:
try `func(*args, **kwargs)`; on an exception matching `error_class`
(`matches_error_class`), run `self.refresh()` (outcome `refresh_outcome`; if it
raises, that exception propagates), run `error_callback()` when
`callable(error_callback)` (`callback_provided`), set
`kwargs[retry_argument] = True` and return `func(*args, **kwargs)` — whose own
exception, if any, propagates unhandled. A non-matching exception propagates
at once. Also returns the ordered list of observable events. -/
def SSMParameter.refresh_on_error_wrapped {A B : Type}
    (matches_error_class : PyErr → Bool)
    (callback_provided : Bool)
    (retry_argument : String)
    (refresh_outcome : Except PyErr Unit)
    (func : A → List (String × Bool) → Except PyErr B)
    (a : A) (kwargs : List (String × Bool)) :
    Except PyErr B × List (WrapEvent A) :=
  match func a kwargs with
  | Except.ok b => (Except.ok b, [WrapEvent.invoke a kwargs])
  | Except.error e =>
    if matches_error_class e then
      match refresh_outcome with
      | Except.error re => (Except.error re, [WrapEvent.invoke a kwargs, WrapEvent.refreshCall])
      | Except.ok _ =>
        let kwargs2 := kwSet kwargs retry_argument true
        (func a kwargs2,
         [WrapEvent.invoke a kwargs, WrapEvent.refreshCall]
           ++ (if callback_provided then [WrapEvent.callbackCall] else [])
           ++ [WrapEvent.invoke a kwargs2])
    else (Except.error e, [WrapEvent.invoke a kwargs])

/-- A concrete store for witnesses: `A ↦ "1"`, `B ↦ "2"`, `foo ↦ "bar"`. -/
def storeEx : Store := fun n =>
  if n = "A" then some "1"
  else if n = "B" then some "2"
  else if n = "foo" then some "bar"
  else none

/-- A group with TTL 60 owning one parameter `A` declared via the factory. -/
def groupEx1 : SSMParameterGroup :=
  ((SSMParameterGroup.init (some 60)).parameter "A" none true).1

/-- A group with TTL 60 owning parameters `A` and `B` declared via the factory. -/
def groupEx2 : SSMParameterGroup :=
  (((SSMParameterGroup.init (some 60)).parameter "A" none true).1.parameter "B" none true).1

/-- A freshly constructed group-less parameter named `foo`. -/
def paramFoo : SSMParameter := (SSMParameter.init "foo" none true).1

/-- The scenario state of spec section 8 after its assumed first batched fetch
at t = 0, for parameter `A`: declared through the group (no per-parameter
`max_age`), here still unfetched. -/
def paramA1 : SSMParameter :=
  { name := "A", value := none, maxAge := none, lastRefreshTime := none,
    withDecryption := true, hasGroup := true }

/-- The scenario state of spec section 8 for parameter `B`: declared through
the group (no per-parameter `max_age`), holding the value `"2"` cached at
t = 0. -/
def paramB2 : SSMParameter :=
  { name := "B", value := some "2", maxAge := none, lastRefreshTime := some 0,
    withDecryption := true, hasGroup := true }

/-- The scenario group of spec section 8: `max_age = 60`, last refreshed at
t = 0, owning `A` and `B`. -/
def groupAB : SSMParameterGroup :=
  { maxAge := some 60, lastRefreshTime := some 0, parameters := [paramA1, paramB2] }

/-- A wrapped operation for witnesses: fails with `KeyError 'boom'` on a
non-retry call and with `TypeError` on a retry call. -/
def funcEx : Nat → List (String × Bool) → Except PyErr Nat := fun _ kw =>
  if kwGet kw "is_retry" = some true then Except.error PyErr.typeError
  else Except.error (PyErr.keyError "boom")

/-- Mutual-recursion analysis of the group refresh path: for every call-depth
budget, on a group that owns at least one parameter all of whose members carry
the group back-reference (as the factory guarantees), `refresh`, `_refresh`,
the member loop, and a member's delegated `_refresh` all exhaust the budget
without performing a single external fetch: `param._refresh()` re-enters
`self._group.refresh()`, which re-enters `SSMParameterGroup._refresh`. -/
theorem group_refresh_diverges_bundle (store : Store) : ∀ fuel : Nat,
    (∀ (now : Int) (g : SSMParameterGroup), g.parameters.isEmpty = false →
      g.parameters.all (fun p => p.hasGroup) = true →
      SSMParameterGroup.refresh store fuel now g = ([], Res.diverge))
    ∧ (∀ (now : Int) (g : SSMParameterGroup), g.parameters.isEmpty = false →
      g.parameters.all (fun p => p.hasGroup) = true →
      SSMParameterGroup.under_refresh store fuel now g = ([], Res.diverge))
    ∧ (∀ (now : Int) (g : SSMParameterGroup) (p : SSMParameter) (ps : List SSMParameter),
      p.hasGroup = true → g.parameters.isEmpty = false →
      g.parameters.all (fun q => q.hasGroup) = true →
      SSMParameterGroup.refresh_loop store fuel now g (p :: ps) = ([], Res.diverge))
    ∧ (∀ (now : Int) (g : SSMParameterGroup) (p : SSMParameter),
      p.hasGroup = true → g.parameters.isEmpty = false →
      g.parameters.all (fun q => q.hasGroup) = true →
      SSMParameter.under_refresh store fuel now g p = ([], Res.diverge)) := by
  intro fuel
  induction fuel with
  | zero =>
    exact ⟨fun _ _ _ _ => rfl, fun _ _ _ _ => rfl,
           fun _ _ _ _ _ _ _ => rfl, fun _ _ _ _ _ _ => rfl⟩
  | succ n ih =>
    obtain ⟨ih1, ih2, ih3, ih4⟩ := ih
    refine ⟨?_, ?_, ?_, ?_⟩
    · intro now g hne hall
      have h2 := ih2 now g hne hall
      simp [SSMParameterGroup.refresh, h2]
    · intro now g hne hall
      cases hps : g.parameters with
      | nil => rw [hps] at hne; simp at hne
      | cons p rest =>
        have hp : p.hasGroup = true := by
          have h := hall
          rw [hps] at h
          simp [List.all_cons] at h
          exact h.1
        have h3 := ih3 now g p rest hp hne hall
        simp [SSMParameterGroup.under_refresh, hps, h3]
    · intro now g p ps hp hne hall
      have h4 := ih4 now g p hp hne hall
      simp [SSMParameterGroup.refresh_loop, h4]
    · intro now g p hp hne hall
      have h1 := ih1 now g hne hall
      simp [SSMParameter.under_refresh, hp, h1]

/-- C1: the claim says `refresh()` on a group with N owned parameters performs
exactly one batched external fetch covering all N names and assigns the
returned values. The code instead loops `param._refresh()`, and each member's
`_refresh` immediately re-enters `self._group.refresh()`: for every call-depth
budget the refresh performs zero external fetches and never completes. -/
theorem group_refresh_performs_no_batched_fetch (store : Store) (fuel : Nat) (now : Int)
    (g : SSMParameterGroup) (hne : g.parameters.isEmpty = false)
    (hall : g.parameters.all (fun p => p.hasGroup) = true) :
    SSMParameterGroup.refresh store fuel now g = ([], Res.diverge) :=
  (group_refresh_diverges_bundle store fuel).1 now g hne hall

/-- C1 witness: a group with TTL 60 owning the single factory-declared
parameter `A`, at call depth 9. -/
theorem group_refresh_performs_no_batched_fetch_witness :
    SSMParameterGroup.refresh storeEx 9 0 groupEx1 = ([], Res.diverge) :=
  group_refresh_performs_no_batched_fetch storeEx 9 0 groupEx1 rfl rfl

/-- C3: the claim says `refresh()` on a group with at least one owned
parameter terminates (the batched refresh completes). For every call-depth
budget the outcome is divergence — the mutual recursion
`SSMParameterGroup._refresh` → `SSMParameter._refresh` →
`SSMParameterGroup.refresh` exhausts any budget (a `RecursionError` in
Python), and the batched refresh never completes. -/
theorem group_refresh_does_not_terminate (store : Store) (fuel : Nat) (now : Int)
    (g : SSMParameterGroup) (hne : g.parameters.isEmpty = false)
    (hall : g.parameters.all (fun p => p.hasGroup) = true) :
    (SSMParameterGroup.refresh store fuel now g).2 = Res.diverge := by
  rw [(group_refresh_diverges_bundle store fuel).1 now g hne hall]

/-- C3 witness: a group with TTL 60 owning factory-declared `A` and `B`, at
call depth 20. -/
theorem group_refresh_does_not_terminate_witness :
    (SSMParameterGroup.refresh storeEx 20 5 groupEx2).2 = Res.diverge :=
  group_refresh_does_not_terminate storeEx 20 5 groupEx2 rfl rfl

/-- C2: the claim says a group-declared parameter's `value` read is governed by
the group's TTL: with the group's `max_age` (60 s, stamped at t = 0) expired at
t = 61, the read must trigger a refresh before returning. In the code the
staleness test is `self._value is None or self._should_refresh()` on the
parameter itself: `B` (cached `"2"`, own `max_age` `None`) is returned stale
with no fetch and no refresh for every call-depth budget, while a read that
does trigger the group-delegated refresh (`A`, still unfetched) exhausts every
budget in the mutual recursion and never returns. -/
theorem grouped_value_read_ignores_group_ttl :
    (∀ fuel : Nat,
      SSMParameter.value_property storeEx fuel 61 groupAB paramB2 = ([], Res.ok (some "2")))
    ∧ (∀ fuel : Nat,
      (SSMParameter.value_property storeEx fuel 61 groupAB paramA1).2 = Res.diverge) := by
  constructor
  · intro fuel
    simp [SSMParameter.value_property, paramB2, Refreshable.should_refresh, pyFalsy]
  · intro fuel
    cases fuel with
    | zero =>
      simp [SSMParameter.value_property, paramA1, SSMParameter.refresh]
    | succ n =>
      have h4 := (group_refresh_diverges_bundle storeEx n).2.2.2 61 groupAB paramA1 rfl rfl rfl
      simp only [paramA1] at h4
      simp [SSMParameter.value_property, paramA1, SSMParameter.refresh, h4]

/-- C6: the claim says a group-less parameter's refresh issues a single fetch
for its name with its decryption flag and then caches the value the store
returned for that name. The single fetch does happen, but the next statement is
`self._value = response['Parameters']['Value']`: `response['Parameters']` is
the list of Name/Value records, and subscripting a list with the string
`'Value'` raises `TypeError` — the exception propagates and `_value` is never
assigned (the parameter comes back unchanged), for every store. -/
theorem solo_refresh_single_fetch_raises_type_error (store : Store) (fuel : Nat) (now : Int)
    (g : SSMParameterGroup) (p : SSMParameter) (h : p.hasGroup = false) :
    SSMParameter.under_refresh store (fuel+1) now g p =
      ([{ names := [p.name], withDecryption := p.withDecryption }],
       Res.raise PyErr.typeError (g, p)) := by
  simp [SSMParameter.under_refresh, h, getParametersResponse, pySubscript, List.find?]

/-- C6 witness: the freshly constructed parameter `foo` against the concrete
store (which does hold a value `"bar"` for `foo`), at call depth 1. -/
theorem solo_refresh_single_fetch_raises_type_error_witness :
    SSMParameter.under_refresh storeEx 1 0 (SSMParameterGroup.init none) paramFoo =
      ([{ names := ["foo"], withDecryption := true }],
       Res.raise PyErr.typeError (SSMParameterGroup.init none, paramFoo)) :=
  solo_refresh_single_fetch_raises_type_error storeEx 0 0 (SSMParameterGroup.init none) paramFoo rfl

/-- Looking the retry flag up after `kwargs[k] = v` yields `v`. -/
theorem kwGet_kwSet_self (kw : List (String × Bool)) (k : String) (v : Bool) :
    kwGet (kwSet kw k v) k = some v := by
  induction kw with
  | nil => simp [kwSet, kwGet]
  | cons hd tl ih =>
    obtain ⟨k', v'⟩ := hd
    by_cases h : k' = k <;> simp [kwSet, kwGet, h, ih]

/-- `kwargs[k] = v` leaves every other key's entry unchanged. -/
theorem kwGet_kwSet_other (kw : List (String × Bool)) (k k2 : String) (v : Bool)
    (h : k2 ≠ k) :
    kwGet (kwSet kw k v) k2 = kwGet kw k2 := by
  have h' : ¬(k = k2) := fun hkk => h hkk.symm
  induction kw with
  | nil => simp [kwSet, kwGet, h']
  | cons hd tl ih =>
    obtain ⟨k', v'⟩ := hd
    by_cases h1 : k' = k
    · subst h1
      simp [kwSet, kwGet, h']
    · simp [kwSet, kwGet, h1, ih]

/-- C4: when the first invocation of the wrapped operation fails with an error
matching `error_class` and the forced `self.refresh()` returns, the wrapper
refreshes the bound entity, invokes the callback exactly when one was provided,
re-invokes the operation exactly once with the same arguments and with
`kwargs[retry_argument] = True` (all other keyword entries unchanged), and
returns that second invocation's result as is — so a second failure propagates
unmodified, and the event trace contains exactly two invocations. -/
theorem refresh_on_error_retries_once {A B : Type}
    (mat : PyErr → Bool) (cb : Bool) (ra : String)
    (func : A → List (String × Bool) → Except PyErr B)
    (a : A) (kw : List (String × Bool)) (e : PyErr)
    (h1 : func a kw = Except.error e) (h2 : mat e = true) :
    SSMParameter.refresh_on_error_wrapped mat cb ra (Except.ok ()) func a kw =
      (func a (kwSet kw ra true),
       [WrapEvent.invoke a kw, WrapEvent.refreshCall]
         ++ (if cb then [WrapEvent.callbackCall] else [])
         ++ [WrapEvent.invoke a (kwSet kw ra true)])
    ∧ kwGet (kwSet kw ra true) ra = some true
    ∧ (∀ k, k ≠ ra → kwGet (kwSet kw ra true) k = kwGet kw k) := by
  refine ⟨?_, kwGet_kwSet_self kw ra true, fun k hk => kwGet_kwSet_other kw ra k true hk⟩
  simp [SSMParameter.refresh_on_error_wrapped, h1, h2]

/-- C4 witness: `funcEx` fails with `KeyError 'boom'` first and `TypeError` on
the retry; with a matching error class, a provided callback and retry flag
`is_retry`, the wrapper produces exactly the trace invoke, refresh, callback,
retried invoke, and propagates the second failure. -/
theorem refresh_on_error_retries_once_witness :
    SSMParameter.refresh_on_error_wrapped (fun _ => true) true "is_retry" (Except.ok ())
        funcEx 0 [] =
      (Except.error PyErr.typeError,
       [WrapEvent.invoke 0 [], WrapEvent.refreshCall, WrapEvent.callbackCall,
        WrapEvent.invoke 0 [("is_retry", true)]]) :=
  (refresh_on_error_retries_once (fun _ => true) true "is_retry" funcEx 0 []
    (PyErr.keyError "boom") rfl rfl).1

/-- C8: a failure whose kind does not match `error_class` propagates to the
caller at once: the result is that same error, and the event trace holds the
single original invocation — no refresh call, no callback, no retry. -/
theorem nonmatching_error_propagates_without_refresh {A B : Type}
    (mat : PyErr → Bool) (cb : Bool) (ra : String) (refresh_outcome : Except PyErr Unit)
    (func : A → List (String × Bool) → Except PyErr B)
    (a : A) (kw : List (String × Bool)) (e : PyErr)
    (h1 : func a kw = Except.error e) (h2 : mat e = false) :
    SSMParameter.refresh_on_error_wrapped mat cb ra refresh_outcome func a kw =
      (Except.error e, [WrapEvent.invoke a kw]) := by
  simp [SSMParameter.refresh_on_error_wrapped, h1, h2]

/-- C8 witness: with an error class matching nothing, `funcEx`'s
`KeyError 'boom'` propagates immediately and the trace is the one invocation. -/
theorem nonmatching_error_propagates_without_refresh_witness :
    SSMParameter.refresh_on_error_wrapped (fun _ => false) true "is_retry" (Except.ok ())
        funcEx 7 [] =
      (Except.error (PyErr.keyError "boom"), [WrapEvent.invoke 7 []]) :=
  nonmatching_error_propagates_without_refresh (fun _ => false) true "is_retry" (Except.ok ())
    funcEx 7 [] (PyErr.keyError "boom") rfl rfl

/-- C5: `_should_refresh()` is true iff `max_age` is set to a nonzero value and
(`last_refresh_time` is absent or `now > last_refresh_time + max_age`); when
`max_age` is unset or zero it is false regardless of elapsed time. -/
theorem should_refresh_iff_spec (ma lrt : Option Int) (now : Int) :
    (Refreshable.should_refresh ma lrt now = true ↔
      ∃ a, ma = some a ∧ a ≠ 0 ∧ (lrt = none ∨ ∃ t, lrt = some t ∧ now > t + a))
    ∧ ((ma = none ∨ ma = some 0) → Refreshable.should_refresh ma lrt now = false) := by
  constructor
  · cases ma with
    | none => simp [Refreshable.should_refresh, pyFalsy]
    | some a =>
      by_cases ha : a = 0
      · subst ha
        simp [Refreshable.should_refresh, pyFalsy]
      · cases lrt with
        | none => simp [Refreshable.should_refresh, pyFalsy, ha]
        | some t =>
          simp [Refreshable.should_refresh, pyFalsy, ha, Refreshable.max_age_delta]
  · rintro (h | h) <;> subst h <;> simp [Refreshable.should_refresh, pyFalsy]

/-- C5 witness: `max_age` unset, a recorded last refresh long past, `now = 5`:
no refresh is forced. -/
theorem should_refresh_iff_spec_witness :
    Refreshable.should_refresh none (some 0) 5 = false :=
  (should_refresh_iff_spec none (some 0) 5).2 (Or.inl rfl)

/-- C7: `Refreshable.refresh` propagates the concrete fetch's outcome
unchanged, and records `now` as `last_refresh_time` exactly when that fetch
returned successfully — on a raised fetch the timestamp is left as it was. -/
theorem refresh_stamps_iff_fetch_succeeds {σ : Type} (u : σ → Except PyErr Unit × σ)
    (now : Int) (lrt : Option Int) (s : σ) :
    (Refreshable.refresh u now lrt s).1 = (u s).1
    ∧ (Refreshable.refresh u now lrt s).2.1 = (if isOkE (u s).1 then some now else lrt) := by
  cases hus : u s with
  | mk r s' => cases r <;> simp [Refreshable.refresh, hus, isOkE]

/-- C9: constructing an `SSMParameter` performs zero external fetch calls and
leaves both the cached value and the refresh timestamp unset, so the first
fetch can only happen in a later `value` read or explicit `refresh()`. -/
theorem constructor_performs_no_fetch (param_name : String) (max_age : Option Int)
    (with_decryption : Bool) :
    (SSMParameter.init param_name max_age with_decryption).2 = []
    ∧ (SSMParameter.init param_name max_age with_decryption).1.value = none
    ∧ (SSMParameter.init param_name max_age with_decryption).1.lastRefreshTime = none :=
  ⟨rfl, rfl, rfl⟩

/-- C10: the claim says the `name` property returns the stored `param_name`.
The property's body is `return self.name`, which re-enters the property: for
every call-depth budget it exhausts the budget (`RecursionError`) and never
produces the backing `self._name`. -/
theorem name_property_never_returns : ∀ (fuel : Nat) (p : SSMParameter),
    SSMParameter.name_property fuel p = none := by
  intro fuel p
  induction fuel with
  | zero => rfl
  | succ n ih => exact ih
